import Mathlib

/-!
Verification of the publish script (`src/scripts.v2/publish.js`) against its
natural-language specification.

The development shallowly embeds the pure computations of the script as Lean
functions.  External collaborators of the script — the Node `crypto` HMAC, the
`mime-types` registry, `JSON.parse`, the HTTPS transport, the Azure blob SDK
and the filesystem — are modelled as explicit parameters (oracles) or as small
executable models, each documented at its definition.  Machine dates are
modelled as milliseconds since the Unix epoch (the representation `moment`
itself uses).
-/

namespace Publish

/-! ## JavaScript string primitives

The script uses `String.prototype.replace` with a *string* pattern (which
replaces only the first occurrence), `String.prototype.split(".")[0]`,
`String.prototype.startsWith` and `path`-style basename/extension splitting
(via the `mime-types` library).  These are embedded as structurally recursive
functions on `List Char`. -/

/-- JS `s.replace(pat, rep)` with a string pattern: replaces only the FIRST
occurrence of `pat` in `s`; if `pat` does not occur, returns `s` unchanged;
an empty pattern matches at position 0. -/
def listReplaceFirst (pat rep : List Char) : List Char → List Char
  | [] => if pat = [] then rep else []
  | c :: cs =>
    if pat.isPrefixOf (c :: cs) then rep ++ (c :: cs).drop pat.length
    else c :: listReplaceFirst pat rep cs

/-- String-level wrapper for `listReplaceFirst`: JS `s.replace(pat, rep)`
(first occurrence only). -/
def jsReplaceFirst (s pat rep : String) : String :=
  String.mk (listReplaceFirst pat.data rep.data s.data)

/-- The prefix of a character list up to (excluding) the first occurrence of
`sep`; the whole list when `sep` does not occur.  `takeUntilChar '.' s.data`
is JS `s.split(".")[0]`. -/
def takeUntilChar (sep : Char) : List Char → List Char
  | [] => []
  | c :: cs => if c = sep then [] else c :: takeUntilChar sep cs

/-- ASCII lowercasing of one character, as JS `toLowerCase` acts on ASCII. -/
def lowerChar (c : Char) : Char :=
  if 'A' ≤ c ∧ c ≤ 'Z' then Char.ofNat (c.toNat + 32) else c

/-- ASCII lowercasing of a string, as JS `toLowerCase` acts on ASCII. -/
def lowerStr (s : String) : String :=
  String.mk (s.data.map lowerChar)

/-! ## Model of the external `mime-types` registry

`mime-types` is an external npm dependency (a finite table from the `mime-db`
dataset).  It is modelled by a finite registry value `MimeDb`.
* `mime.extension(type)` returns the default extension for a content type, or
  the JS boolean `false` when the type is unknown — never `null`/`undefined`.
  It is embedded as `mimeExtension`, returning `Option String` where `none`
  stands for the JS `false`.
* `mime.lookup(path)` extracts the extension of the path — the suffix of
  `path.extname("x." + path)` without its dot, lowercased — and returns the
  registered content type for it, or the JS `false` (here `none`) when the
  path has no extension or the extension is unknown. -/
structure MimeDb where
  /-- extension (lowercase, no dot) ↦ content type, backing `mime.lookup`. -/
  byExt : List (String × String)
  /-- content type (lowercase) ↦ default extension, backing `mime.extension`. -/
  byType : List (String × String)

/-- Model of `mime.extension(contentType)`: `none` stands for the JS `false`
returned for an unregistered content type. -/
def mimeExtension (db : MimeDb) (contentType : String) : Option String :=
  db.byType.lookup (lowerStr contentType)

/-- Model of `path.extname("x." + p).substr(1)` as performed inside
`mime.lookup`: the suffix of the basename of `"x." ++ p` after its last dot,
empty when the basename has no dot or only a leading dot. -/
def pathExtension (p : String) : String :=
  let baseRev := takeUntilChar '/' ("x." ++ p).data.reverse
  let extRev := takeUntilChar '.' baseRev
  if extRev.length = baseRev.length then ""
  else if extRev.length + 1 = baseRev.length then ""
  else String.mk extRev.reverse

/-- Model of `mime.lookup(path)`: `none` stands for the JS `false` returned
when the path has no extension or the extension is unregistered. -/
def mimeLookup (db : MimeDb) (p : String) : Option String :=
  let e := pathExtension p
  if e = "" then none else db.byExt.lookup (lowerStr e)

/-- A small concrete registry holding the entries exercised by the claims;
a finite stand-in for the full `mime-db` dataset. -/
def sampleDb : MimeDb :=
  { byExt := [("png", "image/png"), ("json", "application/json"), ("html", "text/html")]
    byType := [("image/png", "png"), ("application/json", "json"), ("text/html", "html")] }

/-! ## TokenProvider: `generateSASToken` and `getTokenOrThrow`
(publish.js lines 139–166)

`generateSASToken` reads the clock via `moment()`, adds `expiresIn` seconds
and formats the expiry with the `moment` format string
`YYYY-MM-DD[T]HH:mm:ss.SSSSSSS[Z]`.  The instant is embedded as milliseconds
since the Unix epoch (the representation used by `moment`); the clock read is an
explicit parameter `nowMs`.  The Node `crypto` HMAC
(`crypto.createHmac("sha512", key).update(data).digest("base64")`) is an
external primitive, embedded as an oracle parameter
`hmacSha512Base64 : String → String → String` taking the key and the data. -/

/-- Fixed-width two-digit zero-padded decimal rendering, as `moment` renders
the `MM`, `DD`, `HH`, `mm`, `ss` tokens (their values are below 100). -/
def pad2 (n : Nat) : List Char :=
  [Nat.digitChar (n / 10 % 10), Nat.digitChar (n % 10)]

/-- Fixed-width four-digit zero-padded decimal rendering, as `moment` renders
the `YYYY` token for years 0–9999 (the domain of every realistic clock
value; `moment` would render later years with more digits). -/
def pad4 (n : Nat) : List Char :=
  [Nat.digitChar (n / 1000 % 10), Nat.digitChar (n / 100 % 10),
   Nat.digitChar (n / 10 % 10), Nat.digitChar (n % 10)]

/-- Fixed-width seven-digit zero-padded decimal rendering, as `moment`
renders the `SSSSSSS` token (its value `milliseconds * 10000` is below
`10^7`). -/
def pad7 (n : Nat) : List Char :=
  [Nat.digitChar (n / 1000000 % 10), Nat.digitChar (n / 100000 % 10),
   Nat.digitChar (n / 10000 % 10), Nat.digitChar (n / 1000 % 10),
   Nat.digitChar (n / 100 % 10), Nat.digitChar (n / 10 % 10),
   Nat.digitChar (n % 10)]

/-- Proleptic-Gregorian civil date (year, month 1–12, day 1–31) of a day
count since 1970-01-01, for nonnegative day counts — the calendar `moment.utc`
computes. -/
def civilFromDays (z : Nat) : Nat × Nat × Nat :=
  let z' := z + 719468
  let era := z' / 146097
  let doe := z' % 146097
  let yoe := (doe - doe / 1460 + doe / 36524 - doe / 146096) / 365
  let y := yoe + era * 400
  let doy := doe - (365 * yoe + yoe / 4 - yoe / 100)
  let mp := (5 * doy + 2) / 153
  let d := doy - (153 * mp + 2) / 5 + 1
  let m := if mp < 10 then mp + 3 else mp - 9
  (if m ≤ 2 then y + 1 else y, m, d)

/-- `moment.utc(ms).format("YYYY-MM-DD[T]HH:mm:ss.SSSSSSS[Z]")`: the UTC
instant `ms` milliseconds after the Unix epoch rendered with four-digit year,
two-digit month, day, hour, minute and second, a seven-digit fractional part
(`milliseconds * 10000`, `moment` stores only milliseconds) and a literal
trailing `Z`. -/
def formatMoment7 (ms : Nat) : String :=
  let days := ms / 86400000
  let rem := ms % 86400000
  let ymd := civilFromDays days
  String.mk (pad4 ymd.1 ++ '-' :: pad2 ymd.2.1 ++ '-' :: pad2 ymd.2.2
    ++ 'T' :: pad2 (rem / 3600000) ++ ':' :: pad2 (rem % 3600000 / 60000)
    ++ ':' :: pad2 (rem % 60000 / 1000) ++ '.' :: pad7 (rem % 1000 * 10000)
    ++ ['Z'])

/-- publish.js lines 158–166.  `generateSASToken(id, key, expiresIn = 3600)`:
expiry is the clock value plus `expiresIn` seconds, `expiryString` its
`moment` rendering, and the credential is
`SharedAccessSignature uid={id}&ex={expiryString}&sn={signature}` where the
signature is the base64 HMAC-SHA512 (oracle `hmacSha512Base64`) keyed by
`key` over `id ++ "\n" ++ expiryString`. -/
def generateSASToken (hmacSha512Base64 : String → String → String)
    (nowMs : Nat) (id key : String) (expiresIn : Nat := 3600) : String :=
  let expiryString := formatMoment7 (nowMs + expiresIn * 1000)
  let dataToSign := id ++ "\n" ++ expiryString
  let signedData := hmacSha512Base64 key dataToSign
  "SharedAccessSignature uid=" ++ id ++ "&ex=" ++ expiryString ++ "&sn=" ++ signedData

/-- publish.js lines 139–147.  `getTokenOrThrow(token, id, key)`: a JS
`undefined` argument is embedded as `""` (both are falsy for strings).  The
second component counts HTTPS requests issued on the path taken: the source
function and `generateSASToken` perform none (no use of the `https` module),
so it is `0` on every path. -/
def getTokenOrThrow (hmacSha512Base64 : String → String → String)
    (nowMs : Nat) (token id key : String) : Except String String × Nat :=
  if token ≠ "" then (.ok token, 0)
  else if id ≠ "" ∧ key ≠ "" then
    (.ok (generateSASToken hmacSha512Base64 nowMs id key), 0)
  else (.error "You need to specify either: token or id AND key", 0)

/-! ## SignedHttpClient: `request` (publish.js lines 189–245)

`request(method, url, accessToken, body)` performs exactly one
`https.request` call.  The transport is embedded as an oracle
`attempts : Nat → Except String HttpResponse` giving the outcome of the
`n`-th transport attempt; the source consults only attempt `0` (there is no
retry loop).  A transport-level failure fires `req.on("error", e => reject(e))`,
rejecting the promise with the underlying error itself.  On a response, the
`end` handler switches on `resp.statusCode`; on 200/201 it runs
`data.startsWith("{") ? resolve(JSON.parse(data)) : resolve(data)`.
`JSON.parse` is a platform primitive, embedded as an oracle
`parse : String → Except String J`; when it fails the exception escapes the
`end` callback — neither `resolve` nor `reject` runs (outcome `thrown`). -/

/-- JS `s.startsWith(pre)`, embedded structurally on the character lists. -/
def jsStartsWith (s pre : String) : Bool :=
  pre.data.isPrefixOf s.data

/-- The response the `https` transport delivers to the `end` handler:
status code, status message and the accumulated body string. -/
structure HttpResponse where
  statusCode : Nat
  statusMessage : String
  body : String

/-- Possible outcomes of one `request` call, for parsed values of type `J`:
resolution with a parsed JSON value, resolution with the raw body string,
an exception escaping the response callback (a `JSON.parse` failure),
rejection with a `{code, message}` object built by the status switch, and
rejection with the raw transport error (`req.on("error")`). -/
inductive SendOutcome (J : Type) where
  | resolvedJson (v : J)
  | resolvedRaw (body : String)
  | thrown (e : String)
  | rejectedWith (code message : String)
  | rejectedError (e : String)
  deriving DecidableEq

/-- publish.js lines 214–231: the `switch (resp.statusCode)` of the `end`
handler.  The `case 200: case 201:` fallthrough dispatches on the first
character of the body; 404, 401 and 403 reject with their code/message
objects; every other status hits `default` and rejects with
`UnhandledError`. -/
def handleEnd {J : Type} (parse : String → Except String J)
    (url : String) (r : HttpResponse) : SendOutcome J :=
  if r.statusCode = 200 ∨ r.statusCode = 201 then
    if jsStartsWith r.body "\x7b" then
      match parse r.body with
      | .ok v => .resolvedJson v
      | .error e => .thrown e
    else .resolvedRaw r.body
  else if r.statusCode = 404 then
    .rejectedWith "NotFound" ("Resource not found: " ++ url)
  else if r.statusCode = 401 then
    .rejectedWith "Unauthorized" "Unauthorized. Make sure you correctly specified management API access token before running the script."
  else if r.statusCode = 403 then
    .rejectedWith "Forbidden" "Looks like you are not allowed to perform this operation. Please check with your administrator."
  else
    .rejectedWith "UnhandledError"
      ("Could not complete request to " ++ url ++ ". Status: "
        ++ toString r.statusCode ++ " " ++ r.statusMessage)

/-- publish.js lines 189–245: one `request` call.  Exactly one transport
attempt (attempt `0`) is issued; its failure is rejected unchanged
(`reject(e)`), its response goes to the `end` handler. -/
def request {J : Type} (parse : String → Except String J) (url : String)
    (attempts : Nat → Except String HttpResponse) : SendOutcome J :=
  match attempts 0 with
  | .error e => .rejectedError e
  | .ok resp => handleEnd parse url resp

/-! ## BlobSyncEngine: `downloadBlobs`, `uploadBlobs`, `deleteBlobs`
(publish.js lines 247–316)

Each operation builds a `BlobServiceClient` on
`blobStorageUrl.replace("/" + blobStorageContainer, "")` — a first-occurrence
string replacement — and addresses the fixed container
`blobStorageContainer = "content"`, then runs a sequential
`for`/`for await` loop whose body awaits one external transfer per item.
The Azure SDK transfers and the filesystem are embedded as per-item effect
oracles returning `Except String Unit` (the failure string is the message
of the JS error).  The whole body sits in a `try`/`catch` that rethrows
`new Error("Unable to … media files. " + error.message)`, so the first
failing transfer aborts the loop and is wrapped with the per-operation
prefix. -/

/-- publish.js line 82: the fixed container name. -/
def blobStorageContainer : String := "content"

/-- The service URL every bulk operation passes to `new BlobServiceClient`:
`blobStorageUrl.replace("/" + blobStorageContainer, "")`, deleting only the
first occurrence of `"/content"`. -/
def blobServiceUrl (blobStorageUrl : String) : String :=
  jsReplaceFirst blobStorageUrl ("/" ++ blobStorageContainer) ""

/-- One remote blob as enumerated by `listBlobsFlat()`: its container-relative
name and the content type from `blob.properties.contentType`. -/
structure BlobRecord where
  name : String
  contentType : String
  deriving DecidableEq

/-- JS loose inequality `extension != null` (publish.js line 261), where
`extension` is the result of `mime.extension(...)`, i.e. either a string or
the JS boolean `false` — never `null`/`undefined`.  Both a string and `false`
are `!= null` in JS, so the test is true on every input. -/
def extNeNull (_ : Option String) : Bool := true

/-- JS template-literal rendering of the `extension` value: a string renders
as itself and the JS `false` (here `none`) renders as the text `"false"`. -/
def extTemplate : Option String → String
  | some e => e
  | none => "false"

/-- publish.js lines 258–266: the local path `downloadBlobs` computes for one
blob: `if (extension != null) pathToFile = root/name.extension else
pathToFile = root/name`, with the JS semantics of the test and of the
template literal made explicit by `extNeNull` and `extTemplate`. -/
def downloadPathToFile (snapshotMediaFolder name : String)
    (extension : Option String) : String :=
  if extNeNull extension then
    snapshotMediaFolder ++ "/" ++ name ++ "." ++ extTemplate extension
  else
    snapshotMediaFolder ++ "/" ++ name

/-- publish.js line 285: the blob key `uploadBlobs` computes for one local
file: `fileName.replace(localMediaFolder + "/", "").split(".")[0]` — strip
the first occurrence of the root prefix, then keep the part before the first
dot. -/
def blobKeyOf (localMediaFolder fileName : String) : String :=
  String.mk (takeUntilChar '.'
    (jsReplaceFirst fileName (localMediaFolder ++ "/") "").data)

/-- publish.js line 286: `mime.lookup(fileName) || "application/octet-stream"`
(`mime.lookup` returns the JS `false`, here `none`, for an unknown or missing
extension). -/
def uploadContentType (db : MimeDb) (fileName : String) : String :=
  (mimeLookup db fileName).getD "application/octet-stream"

/-- A sequential `for`/`for await` loop awaiting `step` on each item: returns
the first failure (if any) and the list of items whose step completed before
it; items after the first failure are not attempted. -/
def forAwaitStep {α : Type} (step : α → Except String Unit) :
    List α → Option String × List α
  | [] => (none, [])
  | x :: xs =>
    match step x with
    | .error e => (some e, [])
    | .ok _ =>
      let r := forAwaitStep step xs
      (r.1, x :: r.2)

/-- The observable outcome of one bulk operation: the service URL and
container it addressed, the overall result, and the items whose transfer
completed. -/
structure BulkResult (α : Type) where
  serviceUrl : String
  container : String
  result : Except String Unit
  completed : List α

/-- Wraps the loop outcome the way the `catch` block of each operation does:
`throw new Error(prefix + error.message)` on the first failure. -/
def wrapBulk {α : Type} (prefixMsg : String) (url : String)
    (r : Option String × List α) : BulkResult α :=
  { serviceUrl := blobServiceUrl url
    container := blobStorageContainer
    result := match r.1 with
      | some e => .error (prefixMsg ++ e)
      | none => .ok ()
    completed := r.2 }

/-- publish.js lines 247–276: `downloadBlobs(blobStorageUrl, folder)` over
the enumerated `blobs`; the per-blob effect (directory creation and
`downloadToFile`) is the oracle `transfer`, applied to the blob name and the
computed local path. -/
def downloadBlobs (db : MimeDb) (transfer : String → String → Except String Unit)
    (blobStorageUrl snapshotMediaFolder : String) (blobs : List BlobRecord) :
    BulkResult BlobRecord :=
  wrapBulk "Unable to download media files. " blobStorageUrl
    (forAwaitStep (fun b => transfer b.name
      (downloadPathToFile snapshotMediaFolder b.name (mimeExtension db b.contentType))) blobs)

/-- publish.js lines 278–299: `uploadBlobs(blobStorageUrl, folder)` over the
file names `listFilesInDirectory` found (the filesystem walk is external
input); the per-file effect (`uploadFile` with its `blobContentType` header)
is the oracle `upload`, applied to the file name, the computed blob key and
the resolved content type. -/
def uploadBlobs (db : MimeDb) (upload : String → String → String → Except String Unit)
    (blobStorageUrl localMediaFolder : String) (fileNames : List String) :
    BulkResult String :=
  wrapBulk "Unable to upload media files. " blobStorageUrl
    (forAwaitStep (fun f => upload f (blobKeyOf localMediaFolder f)
      (uploadContentType db f)) fileNames)

/-- publish.js lines 301–316: `deleteBlobs(blobStorageUrl)` over the
enumerated blobs; the per-blob `delete` call is the oracle `del`, applied to
the blob name. -/
def deleteBlobs (del : String → Except String Unit)
    (blobStorageUrl : String) (blobs : List BlobRecord) : BulkResult BlobRecord :=
  wrapBulk "Unable to delete media files. " blobStorageUrl
    (forAwaitStep (fun b => del b.name) blobs)

/-! ## Spec-side timestamp shape

Section 6 of the specification describes the expiry rendering as an
ISO-8601-like timestamp with seven fractional digits and a trailing `Z`.
The shape is written as a character-class pattern and checked positionally,
independently of the formatter above. -/

/-- One position of a character-class pattern: a decimal digit, or one fixed
literal character. -/
inductive CharClass where
  | digit
  | lit (c : Char)

/-- Does a character fall in a character class. -/
def charClassMatches : CharClass → Char → Bool
  | .digit, c => c.isDigit
  | .lit x, c => c == x

/-- Does a character list match a character-class pattern position by
position (equal lengths required). -/
def charClassListMatches : List CharClass → List Char → Bool
  | [], [] => true
  | k :: ks, c :: cs => charClassMatches k c && charClassListMatches ks cs
  | _, _ => false

/-- The pattern `YYYY-MM-DDTHH:mm:ss.fffffffZ` of the specification: four
digit positions, dash, two digits, dash, two digits, literal `T`, three
colon-separated two-digit groups, a dot, seven digit positions and a final
literal `Z`. -/
def timestampClasses : List CharClass :=
  [.digit, .digit, .digit, .digit, .lit '-', .digit, .digit, .lit '-',
   .digit, .digit, .lit 'T', .digit, .digit, .lit ':', .digit, .digit,
   .lit ':', .digit, .digit, .lit '.', .digit, .digit, .digit, .digit,
   .digit, .digit, .digit, .lit 'Z']

/-- A string has the `YYYY-MM-DDTHH:mm:ss.fffffffZ` shape: 28 characters,
digits and fixed separators in the positions of `timestampClasses`. -/
def timestampShape (s : String) : Bool :=
  charClassListMatches timestampClasses s.data

/-! ## Helper lemmas -/

/-- Rendering any value with `Nat.digitChar` after a `% 10` reduction yields
a decimal digit character. -/
theorem digitChar_mod_isDigit (n : Nat) : (Nat.digitChar (n % 10)).isDigit = true := by
  have h : n % 10 < 10 := Nat.mod_lt n (by norm_num)
  set k := n % 10 with hk
  interval_cases k <;> rfl

/-- The `moment` rendering always has the `YYYY-MM-DDTHH:mm:ss.fffffffZ`
shape, whatever the instant. -/
theorem timestampShape_formatMoment7 (ms : Nat) :
    timestampShape (formatMoment7 ms) = true := by
  simp only [timestampShape, formatMoment7, pad4, pad2, pad7, timestampClasses,
    List.cons_append, List.nil_append]
  simp [charClassListMatches, charClassMatches, digitChar_mod_isDigit]

/-- Cutting at a separator that occurs in the first block ignores whatever
follows the first block. -/
theorem takeUntilChar_append_of_mem (sep : Char) (xs ys : List Char)
    (h : sep ∈ xs) : takeUntilChar sep (xs ++ ys) = takeUntilChar sep xs := by
  induction xs with
  | nil => cases h
  | cons c cs ih =>
    by_cases hc : c = sep
    · simp [takeUntilChar, hc]
    · have : sep ∈ cs := by
        rcases List.mem_cons.mp h with h1 | h1
        · exact absurd h1.symm hc
        · exact h1
      simp [takeUntilChar, hc, ih this]

/-- A first-occurrence replacement whose pattern is a prefix of the subject
replaces exactly that prefix. -/
theorem listReplaceFirst_stripPrefix (pat rep s : List Char) :
    listReplaceFirst pat rep (pat ++ s) = rep ++ s := by
  cases pat with
  | nil =>
    cases s with
    | nil => simp [listReplaceFirst]
    | cons c cs => simp [listReplaceFirst, List.isPrefixOf]
  | cons p ps =>
    have hpre : (p :: ps).isPrefixOf ((p :: ps) ++ s) = true :=
      List.isPrefixOf_iff_prefix.mpr (List.prefix_append _ _)
    rw [List.cons_append]
    simp only [listReplaceFirst]
    rw [← List.cons_append, if_pos hpre, List.drop_left]

/-- Stripping the sync-root prefix from a path directly below it. -/
theorem jsReplaceFirst_root (root rest : String) :
    jsReplaceFirst (root ++ rest) root "" = rest := by
  apply String.ext
  show listReplaceFirst root.data [] (root ++ rest).data = rest.data
  rw [String.data_append, listReplaceFirst_stripPrefix, List.nil_append]

/-- Extension extraction ignores the sync-root prefix when the relative part
contains a path separator. -/
theorem pathExtension_under_root (root : String) :
    pathExtension (root ++ "/a/b.png") = "png" := by
  unfold pathExtension
  have h1 : ("x." ++ (root ++ "/a/b.png")).data
      = ("x." ++ root).data ++ "/a/b.png".data := by
    simp [String.data_append, List.append_assoc]
  rw [h1, List.reverse_append,
    takeUntilChar_append_of_mem '/' ("/a/b.png".data.reverse) _ (by decide)]
  decide

/-- Claim C1: round-trip of the blob/file mapping.  For a blob named `a/b`
with content type `image/png` (registered in the mime registry with default
extension `png`), `downloadBlobs` computes the local file `root/a/b.png`
(publish.js lines 258–266), and `uploadBlobs` applied to that file under
`root` recovers the blob key `a/b` — the root prefix is stripped and the
relative path truncated at its first dot (line 285) — and the content type
`image/png` (line 286). -/
theorem download_upload_roundTrip (db : MimeDb) (root : String)
    (hext : mimeExtension db "image/png" = some "png")
    (hlook : db.byExt.lookup "png" = some "image/png") :
    downloadPathToFile root "a/b" (mimeExtension db "image/png") = root ++ "/a/b.png"
    ∧ blobKeyOf root (root ++ "/a/b.png") = "a/b"
    ∧ uploadContentType db (root ++ "/a/b.png") = "image/png" := by
  refine ⟨?_, ?_, ?_⟩
  · rw [hext]
    show root ++ "/" ++ "a/b" ++ "." ++ "png" = root ++ "/a/b.png"
    apply String.ext
    simp [String.data_append]
  · unfold blobKeyOf
    have h2 : root ++ "/a/b.png" = (root ++ "/") ++ "a/b.png" := by
      apply String.ext
      simp [String.data_append]
    rw [h2, jsReplaceFirst_root]
    decide
  · unfold uploadContentType mimeLookup
    rw [pathExtension_under_root]
    simp [hlook, lowerStr, lowerChar]

/-- Claim C1, witness: the round trip evaluated on the sample registry with
sync root `root`. -/
theorem download_upload_roundTrip_witness :
    (mimeExtension sampleDb "image/png" = some "png"
      ∧ sampleDb.byExt.lookup "png" = some "image/png")
    ∧ (downloadPathToFile "root" "a/b" (mimeExtension sampleDb "image/png") = "root" ++ "/a/b.png"
      ∧ blobKeyOf "root" ("root" ++ "/a/b.png") = "a/b"
      ∧ uploadContentType sampleDb ("root" ++ "/a/b.png") = "image/png") :=
  ⟨⟨by decide, by decide⟩,
    download_upload_roundTrip sampleDb "root" (by decide) (by decide)⟩

/-- Model of the platform `JSON.parse` on the one body the counterexample
uses: on the truncated JSON text consisting of a single opening brace it
throws `Unexpected end of JSON input` (the standard V8 message); it accepts
every other string.  Parsed values are irrelevant here, so `J = Unit`. -/
def jsonParseTrunc : String → Except String Unit := fun s =>
  if s = "\x7b" then .error "Unexpected end of JSON input" else .ok ()

/-- Claim C2, counterexample: a 200 response whose body is the single
character `\x7b` is a non-JSON 2xx body, yet `request` neither resolves it
(as JSON or as a literal string) nor rejects it — line 218 runs
`resolve(JSON.parse(data))` and the `JSON.parse` exception escapes the `end`
callback, so the client throws, refuting the `never throwing on a non-JSON
2xx body` part of the claim. -/
theorem request_throws_on_truncated_json_body :
    request jsonParseTrunc "https://example.test/publish"
      (fun _ => .ok { statusCode := 200, statusMessage := "OK", body := "\x7b" })
      = SendOutcome.thrown "Unexpected end of JSON input" := by
  decide

/-- Claim C2 as amended: for every response, `request` resolves a 200 or 201
body as parsed JSON when its first character is `\x7b` and parsing succeeds,
lets the parse exception escape when parsing fails, resolves the body as the
literal string when its first character is not `\x7b` (never throwing in that
case), rejects 404 as `NotFound` carrying the URL, 401 as `Unauthorized`,
403 as `Forbidden`, and every other status as `UnhandledError` carrying the
URL, status code and status message — no status is left unhandled. -/
theorem request_status_mapping {J : Type} (parse : String → Except String J)
    (url : String) (attempts : Nat → Except String HttpResponse)
    (r : HttpResponse) (hatt : attempts 0 = .ok r) :
    ((r.statusCode = 200 ∨ r.statusCode = 201) →
      (jsStartsWith r.body "\x7b" = true →
        (∀ v, parse r.body = .ok v → request parse url attempts = .resolvedJson v)
        ∧ (∀ e, parse r.body = .error e → request parse url attempts = .thrown e))
      ∧ (jsStartsWith r.body "\x7b" = false →
          request parse url attempts = .resolvedRaw r.body))
    ∧ (r.statusCode = 404 →
        request parse url attempts
          = .rejectedWith "NotFound" ("Resource not found: " ++ url))
    ∧ (r.statusCode = 401 →
        request parse url attempts
          = .rejectedWith "Unauthorized" "Unauthorized. Make sure you correctly specified management API access token before running the script.")
    ∧ (r.statusCode = 403 →
        request parse url attempts
          = .rejectedWith "Forbidden" "Looks like you are not allowed to perform this operation. Please check with your administrator.")
    ∧ (r.statusCode ≠ 200 → r.statusCode ≠ 201 → r.statusCode ≠ 404 →
        r.statusCode ≠ 401 → r.statusCode ≠ 403 →
        request parse url attempts
          = .rejectedWith "UnhandledError"
              ("Could not complete request to " ++ url ++ ". Status: "
                ++ toString r.statusCode ++ " " ++ r.statusMessage)) := by
  have hreq : request parse url attempts = handleEnd parse url r := by
    simp [request, hatt]
  rw [hreq]
  refine ⟨fun h2 => ⟨fun hb => ⟨fun v hv => ?_, fun e he => ?_⟩, fun hb => ?_⟩,
    fun h => ?_, fun h => ?_, fun h => ?_, fun h200 h201 h404 h401 h403 => ?_⟩
  · simp [handleEnd, h2, hb, hv]
  · simp [handleEnd, h2, hb, he]
  · simp [handleEnd, h2, hb]
  · simp [handleEnd, h]
  · simp [handleEnd, h]
  · simp [handleEnd, h]
  · simp [handleEnd, h200, h201, h404, h401, h403]

/-- Claim C2, witness: a 500 response maps to the `UnhandledError` rejection
carrying the URL, the status code and the status message. -/
theorem request_status_mapping_witness :
    request (fun _ => (.ok () : Except String Unit)) "https://u"
      (fun _ => .ok { statusCode := 500, statusMessage := "Internal Server Error", body := "" })
      = .rejectedWith "UnhandledError"
          ("Could not complete request to " ++ "https://u" ++ ". Status: "
            ++ toString (500 : Nat) ++ " " ++ "Internal Server Error") := by
  have h := request_status_mapping (fun _ => (.ok () : Except String Unit))
    "https://u"
    (fun _ => .ok { statusCode := 500, statusMessage := "Internal Server Error", body := "" })
    { statusCode := 500, statusMessage := "Internal Server Error", body := "" } rfl
  exact h.2.2.2.2 (by decide) (by decide) (by decide) (by decide) (by decide)

/-- Sanity check of the calendar arithmetic: the Unix epoch renders as
midnight, January 1st 1970. -/
theorem formatMoment7_epoch : formatMoment7 0 = "1970-01-01T00:00:00.0000000Z" := by
  decide

/-- Sanity check of the calendar arithmetic across the 2000 leap day:
day 11017 after the epoch is March 1st 2000. -/
theorem formatMoment7_leap : formatMoment7 951868800000 = "2000-03-01T00:00:00.0000000Z" := by
  decide

/-- Sanity check of the millisecond rendering: the last millisecond of 1999
renders with fractional part `9990000`. -/
theorem formatMoment7_millis : formatMoment7 946684799999 = "1999-12-31T23:59:59.9990000Z" := by
  decide

/-- Claim C3: credential derivation format.  For any identifier, key, clock
value and expiry window, the derived credential is exactly
`SharedAccessSignature uid={identifier}&ex={expiryString}&sn={signature}`
where `expiryString` renders `now + expiresIn` (seconds) in the
`YYYY-MM-DDTHH:mm:ss.fffffffZ` shape — seven fractional digits, trailing
`Z` — and the signature is the HMAC-SHA512-base64 oracle applied to the key
and to `identifier ++ "\n" ++ expiryString`; `expiresIn` defaults to 3600.
The bound keeps the expiry below year 10000, the domain on which the
fixed four-digit year rendering coincides with `moment`. -/
theorem generateSASToken_format (hmacSha512Base64 : String → String → String)
    (id key : String) (expiresIn nowMs : Nat)
    (_hrange : nowMs + expiresIn * 1000 < 253402300800000) :
    generateSASToken hmacSha512Base64 nowMs id key expiresIn
      = "SharedAccessSignature uid=" ++ id ++ "&ex="
          ++ formatMoment7 (nowMs + expiresIn * 1000) ++ "&sn="
          ++ hmacSha512Base64 key (id ++ "\n" ++ formatMoment7 (nowMs + expiresIn * 1000))
    ∧ timestampShape (formatMoment7 (nowMs + expiresIn * 1000)) = true
    ∧ generateSASToken hmacSha512Base64 nowMs id key
        = generateSASToken hmacSha512Base64 nowMs id key 3600 :=
  ⟨rfl, timestampShape_formatMoment7 _, rfl⟩

/-- Claim C3, witness: the format theorem evaluated at the epoch with a
concrete signing oracle; the expiry lands one hour after the epoch. -/
theorem generateSASToken_format_witness :
    (0 + 3600 * 1000 < 253402300800000)
    ∧ generateSASToken (fun _ d => d) 0 "integration" "key"
        = "SharedAccessSignature uid=" ++ "integration" ++ "&ex="
            ++ formatMoment7 (0 + 3600 * 1000) ++ "&sn="
            ++ (fun _ d => d) "key" ("integration" ++ "\n" ++ formatMoment7 (0 + 3600 * 1000)) :=
  ⟨by norm_num,
    (generateSASToken_format (fun _ d => d) "integration" "key" 3600 0 (by norm_num)).1⟩

/-- Claim C5: credential resolution order.  `getTokenOrThrow` returns a
non-empty explicit token unchanged; with an empty token and non-empty
identifier and key it returns the derived credential; otherwise it fails with
the missing-credential error, and on that failure path the count of HTTPS
requests issued is zero. -/
theorem getTokenOrThrow_resolution (hmacSha512Base64 : String → String → String)
    (nowMs : Nat) (token id key : String) :
    (token ≠ "" → getTokenOrThrow hmacSha512Base64 nowMs token id key = (.ok token, 0))
    ∧ (token = "" → id ≠ "" → key ≠ "" →
        getTokenOrThrow hmacSha512Base64 nowMs token id key
          = (.ok (generateSASToken hmacSha512Base64 nowMs id key), 0))
    ∧ (token = "" → (id = "" ∨ key = "") →
        getTokenOrThrow hmacSha512Base64 nowMs token id key
          = (.error "You need to specify either: token or id AND key", 0)) := by
  refine ⟨fun ht => ?_, fun ht hi hk => ?_, fun ht hik => ?_⟩
  · simp [getTokenOrThrow, ht]
  · simp [getTokenOrThrow, ht, hi, hk]
  · rcases hik with h | h <;> simp [getTokenOrThrow, ht, h]

/-- Claim C5, witness: with no token, identifier or key, resolution fails
with the missing-credential error and zero network calls. -/
theorem getTokenOrThrow_resolution_witness :
    getTokenOrThrow (fun _ _ => "S") 0 "" "" ""
      = (.error "You need to specify either: token or id AND key", 0) :=
  (getTokenOrThrow_resolution (fun _ _ => "S") 0 "" "" "").2.2 rfl (Or.inl rfl)

/-- Claim C8: determinism of credential derivation.  The embedding threads
the clock read explicitly, so two calls of `generateSASToken` with the same
identifier, key, expiry window, signing oracle and clock value yield
byte-identical credential strings. -/
theorem generateSASToken_deterministic (hmacSha512Base64 : String → String → String)
    (id key : String) (expiresIn now1 now2 : Nat) (h : now1 = now2) :
    generateSASToken hmacSha512Base64 now1 id key expiresIn
      = generateSASToken hmacSha512Base64 now2 id key expiresIn := by
  rw [h]

/-- Claim C8, witness: two calls at the same concrete clock value agree. -/
theorem generateSASToken_deterministic_witness :
    generateSASToken (fun _ _ => "S") 946684799999 "i" "k" 3600
      = generateSASToken (fun _ _ => "S") 946684799999 "i" "k" 3600 :=
  generateSASToken_deterministic (fun _ _ => "S") "i" "k" 3600 946684799999 946684799999 rfl

/-- Claim C4: download path mapping, evaluated at a failing input.  For a
registered content type the computed path is `root/a/b.png` as the claim
states; but for a blob whose content type has no registered extension,
`mime.extension` returns the JS `false`, the test `extension != null` at
line 261 is still true (`false != null` holds in JS), and the template
literal renders it as the text `false`: the code computes `root/a/b.false`,
not the `root/a/b` the claim states — the `else` branch at line 265 is
unreachable. -/
theorem download_unknown_extension_path :
    downloadPathToFile "root" "a/b" (mimeExtension sampleDb "image/png")
      = "root/a/b.png"
    ∧ downloadPathToFile "root" "a/b" (mimeExtension sampleDb "application/x-unknown")
      = "root/a/b.false"
    ∧ downloadPathToFile "root" "a/b" (mimeExtension sampleDb "application/x-unknown")
      ≠ "root/a/b" := by
  refine ⟨by decide, by decide, by decide⟩

/-- Claim C7: unknown content-type fallback, evaluated on both directions.
Upload: a local file with an unrecognized extension gets content type
`application/octet-stream` (line 286), as the claim states.  Download: a
blob with an unregistered content type is written to `root/img.false`, not
to the extensionless `root/img` the claim states, because `mime.extension`
returns the JS `false`, which passes the `extension != null` test of
line 261 and renders as `false` in the template literal. -/
theorem unknown_content_type_fallback :
    uploadContentType sampleDb "root/file.xyz" = "application/octet-stream"
    ∧ uploadContentType sampleDb "root/noextension" = "application/octet-stream"
    ∧ downloadPathToFile "root" "img" (mimeExtension sampleDb "application/x-unknown")
      = "root/img.false"
    ∧ downloadPathToFile "root" "img" (mimeExtension sampleDb "application/x-unknown")
      ≠ "root/img" := by
  refine ⟨by decide, by decide, by decide, by decide⟩

/-- A sequential loop whose step succeeds on every item of `pre` and fails on
`x` stops at `x`: it reports the failure of `x` and has completed exactly
`pre`; no item of `post` is attempted. -/
theorem forAwaitStep_firstFailure {α : Type} (step : α → Except String Unit)
    (pre : List α) (x : α) (post : List α) (e : String)
    (hpre : ∀ y ∈ pre, step y = .ok ())
    (hx : step x = .error e) :
    forAwaitStep step (pre ++ x :: post) = (some e, pre) := by
  induction pre with
  | nil => simp [forAwaitStep, hx]
  | cons a as ih =>
    have ha : step a = .ok () := hpre a (List.mem_cons_self a as)
    have ih' := ih fun y hy => hpre y (List.mem_cons_of_mem a hy)
    simp [forAwaitStep, ha, ih']

/-- Claim C6: bulk-operation error wrapping and abort on first failure.
Each of `downloadBlobs`, `uploadBlobs` and `deleteBlobs` processes its items
sequentially; when the per-item transfer succeeds on every item of the prefix
and fails on the next item, the operation completes exactly the prefix — no
later item is attempted — and surfaces an error that wraps the underlying
cause behind the operation-specific prefix
(`Unable to download media files. `, `Unable to upload media files. `,
`Unable to delete media files. `), preserving the cause text. -/
theorem bulk_abort_on_first_failure (db : MimeDb)
    (transfer : String → String → Except String Unit)
    (upload : String → String → String → Except String Unit)
    (del : String → Except String Unit)
    (u root : String)
    (bpre : List BlobRecord) (b : BlobRecord) (bpost : List BlobRecord)
    (fpre : List String) (f : String) (fpost : List String)
    (dpre : List BlobRecord) (d : BlobRecord) (dpost : List BlobRecord)
    (e1 e2 e3 : String)
    (hb : ∀ y ∈ bpre, transfer y.name
      (downloadPathToFile root y.name (mimeExtension db y.contentType)) = .ok ())
    (hbx : transfer b.name
      (downloadPathToFile root b.name (mimeExtension db b.contentType)) = .error e1)
    (hf : ∀ y ∈ fpre, upload y (blobKeyOf root y) (uploadContentType db y) = .ok ())
    (hfx : upload f (blobKeyOf root f) (uploadContentType db f) = .error e2)
    (hd : ∀ y ∈ dpre, del y.name = .ok ())
    (hdx : del d.name = .error e3) :
    ((downloadBlobs db transfer u root (bpre ++ b :: bpost)).result
        = .error ("Unable to download media files. " ++ e1)
      ∧ (downloadBlobs db transfer u root (bpre ++ b :: bpost)).completed = bpre)
    ∧ ((uploadBlobs db upload u root (fpre ++ f :: fpost)).result
        = .error ("Unable to upload media files. " ++ e2)
      ∧ (uploadBlobs db upload u root (fpre ++ f :: fpost)).completed = fpre)
    ∧ ((deleteBlobs del u (dpre ++ d :: dpost)).result
        = .error ("Unable to delete media files. " ++ e3)
      ∧ (deleteBlobs del u (dpre ++ d :: dpost)).completed = dpre) := by
  refine ⟨⟨?_, ?_⟩, ⟨?_, ?_⟩, ⟨?_, ?_⟩⟩ <;>
    simp [downloadBlobs, uploadBlobs, deleteBlobs, wrapBulk,
      forAwaitStep_firstFailure _ _ _ _ _ hb hbx,
      forAwaitStep_firstFailure _ _ _ _ _ hf hfx,
      forAwaitStep_firstFailure _ _ _ _ _ hd hdx]

/-- Claim C6, witness: three items with the second transfer failing; all
three operations wrap the cause `boom` and complete only the first item. -/
theorem bulk_abort_on_first_failure_witness :
    ((downloadBlobs sampleDb
        (fun n _ => if n = "b2" then .error "boom" else .ok ())
        "https://acct/content" "root"
        [⟨"b1", "image/png"⟩, ⟨"b2", "image/png"⟩, ⟨"b3", "image/png"⟩]).result
      = .error ("Unable to download media files. " ++ "boom")
    ∧ (downloadBlobs sampleDb
        (fun n _ => if n = "b2" then .error "boom" else .ok ())
        "https://acct/content" "root"
        [⟨"b1", "image/png"⟩, ⟨"b2", "image/png"⟩, ⟨"b3", "image/png"⟩]).completed
      = [⟨"b1", "image/png"⟩])
    ∧ ((uploadBlobs sampleDb
        (fun n _ _ => if n = "root/f2.png" then .error "boom" else .ok ())
        "https://acct/content" "root"
        ["root/f1.png", "root/f2.png", "root/f3.png"]).result
      = .error ("Unable to upload media files. " ++ "boom")
    ∧ (uploadBlobs sampleDb
        (fun n _ _ => if n = "root/f2.png" then .error "boom" else .ok ())
        "https://acct/content" "root"
        ["root/f1.png", "root/f2.png", "root/f3.png"]).completed
      = ["root/f1.png"])
    ∧ ((deleteBlobs (fun n => if n = "b2" then .error "boom" else .ok ())
        "https://acct/content"
        [⟨"b1", "image/png"⟩, ⟨"b2", "image/png"⟩, ⟨"b3", "image/png"⟩]).result
      = .error ("Unable to delete media files. " ++ "boom")
    ∧ (deleteBlobs (fun n => if n = "b2" then .error "boom" else .ok ())
        "https://acct/content"
        [⟨"b1", "image/png"⟩, ⟨"b2", "image/png"⟩, ⟨"b3", "image/png"⟩]).completed
      = [⟨"b1", "image/png"⟩]) := by
  exact bulk_abort_on_first_failure sampleDb
    (fun n _ => if n = "b2" then .error "boom" else .ok ())
    (fun n _ _ => if n = "root/f2.png" then .error "boom" else .ok ())
    (fun n => if n = "b2" then .error "boom" else .ok ())
    "https://acct/content" "root"
    [⟨"b1", "image/png"⟩] ⟨"b2", "image/png"⟩ [⟨"b3", "image/png"⟩]
    ["root/f1.png"] "root/f2.png" ["root/f3.png"]
    [⟨"b1", "image/png"⟩] ⟨"b2", "image/png"⟩ [⟨"b3", "image/png"⟩]
    "boom" "boom" "boom"
    (by intro y hy; simp at hy; subst hy; rfl)
    (by rfl)
    (by intro y hy; simp at hy; subst hy; rfl)
    (by rfl)
    (by intro y hy; simp at hy; subst hy; rfl)
    (by rfl)

/-- Claim C9: transport-level failure typing.  When the single transport
attempt fails, `request` rejects with the underlying cause itself
(`req.on("error", e => reject(e))`, lines 235–237), and the outcome depends
only on attempt 0 — the component consults no further attempt, i.e. performs
no retry. -/
theorem request_transport_error {J : Type} (parse : String → Except String J)
    (url : String) (attempts : Nat → Except String HttpResponse) (e : String)
    (h : attempts 0 = .error e) :
    request parse url attempts = .rejectedError e
    ∧ ∀ attempts2 : Nat → Except String HttpResponse,
        attempts 0 = attempts2 0 →
        request parse url attempts = request parse url attempts2 := by
  constructor
  · simp [request, h]
  · intro a2 h2
    simp [request, ← h2]

/-- Claim C9, witness: a DNS failure on the single transport attempt is
rejected unchanged. -/
theorem request_transport_error_witness :
    request (fun _ => (.ok () : Except String Unit)) "https://example.test"
      (fun _ => .error "getaddrinfo ENOTFOUND example.test")
      = .rejectedError "getaddrinfo ENOTFOUND example.test" :=
  (request_transport_error (fun _ => (.ok () : Except String Unit))
    "https://example.test" (fun _ => .error "getaddrinfo ENOTFOUND example.test")
    "getaddrinfo ENOTFOUND example.test" rfl).1

/-- Claim C10: blob service URL derivation.  All three bulk operations derive
the service URL by deleting only the first occurrence of `/content` from the
supplied container URL and address the fixed container `content`.  On the
usual shape the container suffix is removed; but a URL containing `/content`
earlier is mis-derived: the earlier occurrence is deleted and the container
suffix survives. -/
theorem blob_service_url_derivation (db : MimeDb)
    (transfer : String → String → Except String Unit)
    (upload : String → String → String → Except String Unit)
    (del : String → Except String Unit)
    (u root : String) (blobs dblobs : List BlobRecord) (files : List String) :
    ((downloadBlobs db transfer u root blobs).serviceUrl
        = jsReplaceFirst u "/content" ""
      ∧ (downloadBlobs db transfer u root blobs).container = "content")
    ∧ ((uploadBlobs db upload u root files).serviceUrl
        = jsReplaceFirst u "/content" ""
      ∧ (uploadBlobs db upload u root files).container = "content")
    ∧ ((deleteBlobs del u dblobs).serviceUrl = jsReplaceFirst u "/content" ""
      ∧ (deleteBlobs del u dblobs).container = "content")
    ∧ jsReplaceFirst "https://account.blob.core.windows.net/content" "/content" ""
        = "https://account.blob.core.windows.net"
    ∧ jsReplaceFirst "https://host/contentdir/content" "/content" ""
        = "https://hostdir/content" := by
  refine ⟨⟨rfl, rfl⟩, ⟨rfl, rfl⟩, ⟨rfl, rfl⟩, by decide, by decide⟩

end Publish
